import Mathlib

/-!
Formal model of two Savu plugin modules:

* `savu/plugins/segmentation/mask_initialiser.py` — the `MaskInitialiser`
  plugin (`pre_process` / `process_frames`), which draws an interpolated
  disc mask between two 3-D seed points;
* `savu/plugins/loaders/base_loader.py` — the `BaseLoader` NeXus-tree
  searches `get_NXapp` / `get_NXdata` and their `visititems` callbacks.

Modelling conventions.

Python/numpy floats are modelled by exact arithmetic.  The source stores
three float attributes derived in `pre_process`:
`distance = sqrt((x1-x0)^2 + (y1-y0)^2)`, `d_dist = distance/(steps-1.0)`
and `d_step`.  Since `distance` is irrational in general, the model keeps
`distance` by its square (`distanceSq`) and stores `d_dist` and `d_step`
as exact rational multiples of `distance` (the source only ever uses them
through the quotient `t = d_step/distance`, in which `distance` cancels,
so these multiples determine every downstream value; when `distance = 0`
both guards `x0 == x1` and `y0 == y1` fire and `t` is irrelevant, exactly
as in the source).  The one float phenomenon that exact arithmetic cannot
reproduce is the division by zero in `pre_process` when `steps - 1 = 0`:
numpy produces a non-finite value (inf or nan) there without raising.  The
model records that event in the Boolean field `d_dist_nonfinite`; the
rational fields are faithful exactly when this flag is false.
-/

/-! ## Frames (numpy 2-D arrays) -/

/-- Frame models a 2-D numpy array: a shape together with an element
function (entries outside the shape are irrelevant to every claim). -/
structure Frame where
  rows : Nat
  cols : Nat
  val : Nat → Nat → Nat

instance : Inhabited Frame := ⟨⟨0, 0, fun _ _ => 0⟩⟩

/-- Shape of a frame, as np.shape returns it. -/
def np_shape (f : Frame) : Nat × Nat := (f.rows, f.cols)

/-- Model of np.zeros for a 2-D shape. -/
def np_zeros (shape : Nat × Nat) : Frame := ⟨shape.1, shape.2, fun _ _ => 0⟩

/-- Model of the elementwise np.uint8 cast (reduction mod 256). -/
def np_uint8 (f : Frame) : Frame := ⟨f.rows, f.cols, fun i j => f.val i j % 256⟩

/-- Modelled from the spec: the external morphsnakes helper
circle_level_set, absent from this repository, which the spec describes as
producing value 1 inside a filled disc of the given radius centred at the
given (row, column) point and 0 elsewhere (the library compares
radius - sqrt(dist^2) > 0, i.e. strictly). -/
def circle_level_set (shape : Nat × Nat) (center : ℤ × ℤ) (radius : ℤ) : Frame :=
  ⟨shape.1, shape.2, fun i j =>
    if ((i : ℤ) - center.1) ^ 2 + ((j : ℤ) - center.2) ^ 2 < radius ^ 2 then 1 else 0⟩

/-- Rounding as performed by np.round: round half to even. -/
def npRound (q : ℚ) : ℤ :=
  if q - ⌊q⌋ < 1 / 2 then ⌊q⌋
  else if 1 / 2 < q - ⌊q⌋ then ⌊q⌋ + 1
  else if ⌊q⌋ % 2 = 0 then ⌊q⌋ else ⌊q⌋ + 1

/-! ## MaskInitialiser -/

/-- Parameters of the MaskInitialiser plugin: the six entries of
init_coordinates (X0, Y0, Z0, X1, Y1, Z1) and circle_radius. -/
structure MaskParams where
  coordX0 : ℤ
  coordY0 : ℤ
  coordZ0 : ℤ
  coordX1 : ℤ
  coordY1 : ℤ
  coordZ1 : ℤ
  circle_radius : ℤ

/-- Plugin instance attributes set by MaskInitialiser.pre_process.  See the
module docstring for the exact-arithmetic representation of the float
fields distance, d_dist and d_step. -/
structure MaskState where
  coordX0 : ℤ
  coordY0 : ℤ
  coordZ0 : ℤ
  coordX1 : ℤ
  coordY1 : ℤ
  coordZ1 : ℤ
  circle_radius : ℤ
  /-- square of self.distance (distance itself is the real square root) -/
  distanceSq : ℤ
  /-- true exactly when the source divided by a zero steps - 1, storing a
  non-finite float in d_dist; the rational fields below are meaningful
  only when this is false -/
  d_dist_nonfinite : Bool
  /-- self.d_dist, stored as the exact multiple of distance -/
  d_dist : ℚ
  /-- self.d_step, stored as the exact multiple of distance -/
  d_step : ℚ

/-- MaskInitialiser.pre_process: extracts the parameters and derives
steps = Z1 - Z0, distance, d_dist = distance/(steps - 1.0), d_step = d_dist.
The division is performed unconditionally; a zero divisor is recorded in
d_dist_nonfinite (numpy emits inf or nan there rather than raising). -/
def pre_process (p : MaskParams) : MaskState :=
  let steps : ℤ := p.coordZ1 - p.coordZ0
  { coordX0 := p.coordX0
    coordY0 := p.coordY0
    coordZ0 := p.coordZ0
    coordX1 := p.coordX1
    coordY1 := p.coordY1
    coordZ1 := p.coordZ1
    circle_radius := p.circle_radius
    distanceSq := (p.coordX1 - p.coordX0) ^ 2 + (p.coordY1 - p.coordY0) ^ 2
    d_dist_nonfinite := steps - 1 == 0
    d_dist := 1 / ((steps : ℚ) - 1)
    d_step := 1 / ((steps : ℚ) - 1) }

/-- Interpolation parameter t = self.d_step/self.distance computed inside
process_frames from the freshly assigned d_step = (z - Z0) * d_dist; in
exact arithmetic the distance cancels against the one inside d_dist. -/
def interp_t (s : MaskState) (z : ℤ) : ℚ := ((z - s.coordZ0 : ℤ) : ℚ) * s.d_dist

/-- x_t as computed in process_frames: np.round of the interpolation,
overwritten by coordX0 when X0 == X1. -/
def x_t (s : MaskState) (z : ℤ) : ℚ :=
  let t := interp_t s z
  if s.coordX0 = s.coordX1 then (s.coordX0 : ℚ)
  else (npRound ((1 - t) * (s.coordX0 : ℚ) + t * (s.coordX1 : ℚ)) : ℚ)

/-- y_t as computed in process_frames, symmetric to x_t. -/
def y_t (s : MaskState) (z : ℤ) : ℚ :=
  let t := interp_t s z
  if s.coordY0 = s.coordY1 then (s.coordY0 : ℚ)
  else (npRound ((1 - t) * (s.coordY0 : ℚ) + t * (s.coordY1 : ℚ)) : ℚ)

/-- Column coordinate np.round(x_t) passed to circle_level_set. -/
def center_x (s : MaskState) (z : ℤ) : ℤ := npRound (x_t s z)

/-- Row coordinate np.round(y_t) passed to circle_level_set. -/
def center_y (s : MaskState) (z : ℤ) : ℤ := npRound (y_t s z)

/-- MaskInitialiser.process_frames.  The current frame index (read in the
source from the input dataset cursor) is the explicit argument z; the
return value pairs the updated instance state with the returned frame
list.  In range it assigns self.d_step = (z - Z0)*d_dist and returns the
uint8 disc mask; out of range it returns the uint8 zero frame and leaves
the state untouched. -/
def process_frames (s : MaskState) (z : ℤ) (data : List Frame) : MaskState × List Frame :=
  if s.coordZ0 ≤ z ∧ z ≤ s.coordZ1 then
    let d_step : ℚ := ((z - s.coordZ0 : ℤ) : ℚ) * s.d_dist
    ({ s with d_step := d_step },
      [np_uint8 (circle_level_set (np_shape data.headI)
        (center_y s z, center_x s z) s.circle_radius)])
  else
    (s, [np_uint8 (np_zeros (np_shape data.headI))])

/-- Predicate: every entry of the frame is zero. -/
def isZeroFrame (f : Frame) : Prop := ∀ i j, f.val i j = 0

/-- Predicate: every entry of the frame fits the unsigned 8-bit type. -/
def isUint8Frame (f : Frame) : Prop := ∀ i j, f.val i j < 256

/-- A 64 x 64 input frame used to instantiate concrete scenarios. -/
def frame64 : Frame := ⟨64, 64, fun _ _ => 0⟩

/-! ## Theorems about MaskInitialiser -/

/-- C1: with endpoints (10,10,0) and (20,20,10) (so z0 = 0 < z1 = 10) and
radius 5, the disc centre used by process_frames at z = z0 is (10,10) as
the claim states, but at z = z1 it is (21,21), not (20,20): the step size
distance/(steps - 1) makes t = 10/9 > 1 at z1, overshooting the second
endpoint.  The output frame at z1 accordingly has value 1 at pixel
(24,24), which lies outside every radius-5 disc centred at (20,20). -/
theorem mask_endpoint_center_eval :
    (center_x (pre_process ⟨10, 10, 0, 20, 20, 10, 5⟩) 0 = 10 ∧
      center_y (pre_process ⟨10, 10, 0, 20, 20, 10, 5⟩) 0 = 10) ∧
    (center_x (pre_process ⟨10, 10, 0, 20, 20, 10, 5⟩) 10 = 21 ∧
      center_y (pre_process ⟨10, 10, 0, 20, 20, 10, 5⟩) 10 = 21) ∧
    (process_frames (pre_process ⟨10, 10, 0, 20, 20, 10, 5⟩) 10 [frame64]).2.headI.val 24 24
      = 1 := by
  have hcx : center_x (pre_process ⟨10, 10, 0, 20, 20, 10, 5⟩) 10 = 21 := by
    norm_num [center_x, x_t, interp_t, pre_process, npRound]
  have hcy : center_y (pre_process ⟨10, 10, 0, 20, 20, 10, 5⟩) 10 = 21 := by
    norm_num [center_y, y_t, interp_t, pre_process, npRound]
  refine ⟨⟨?_, ?_⟩, ⟨hcx, hcy⟩, ?_⟩
  · norm_num [center_x, x_t, interp_t, pre_process, npRound]
  · norm_num [center_y, y_t, interp_t, pre_process, npRound]
  · have hrange : (pre_process ⟨10, 10, 0, 20, 20, 10, 5⟩).coordZ0 ≤ (10 : ℤ) ∧
        (10 : ℤ) ≤ (pre_process ⟨10, 10, 0, 20, 20, 10, 5⟩).coordZ1 := by
      exact ⟨by norm_num [pre_process], by norm_num [pre_process]⟩
    unfold process_frames
    rw [if_pos hrange]
    simp only [List.headI, np_uint8, circle_level_set, np_shape, hcx, hcy]
    norm_num [pre_process]

/-- C2: in the concrete scenario with endpoints (10,10,0) to (20,20,10),
radius 5 and a 64 x 64 frame, the code computes t = 5/9 (not 0.5) at
z = 5 and centres the disc at (16,16) (not (15,15)); the other two parts
of the claim do hold: z = 11 gives the all-zero frame and z = 0 a disc
centred at (10,10). -/
theorem mask_midpoint_eval :
    interp_t (pre_process ⟨10, 10, 0, 20, 20, 10, 5⟩) 5 = 5 / 9 ∧
    center_x (pre_process ⟨10, 10, 0, 20, 20, 10, 5⟩) 5 = 16 ∧
    center_y (pre_process ⟨10, 10, 0, 20, 20, 10, 5⟩) 5 = 16 ∧
    center_x (pre_process ⟨10, 10, 0, 20, 20, 10, 5⟩) 0 = 10 ∧
    center_y (pre_process ⟨10, 10, 0, 20, 20, 10, 5⟩) 0 = 10 ∧
    isZeroFrame (process_frames (pre_process ⟨10, 10, 0, 20, 20, 10, 5⟩) 11 [frame64]).2.headI
    := by
  refine ⟨?_, ?_, ?_, ?_, ?_, ?_⟩
  · norm_num [interp_t, pre_process]
  · norm_num [center_x, x_t, interp_t, pre_process, npRound]
  · norm_num [center_y, y_t, interp_t, pre_process, npRound]
  · norm_num [center_x, x_t, interp_t, pre_process, npRound]
  · norm_num [center_y, y_t, interp_t, pre_process, npRound]
  · have hc : ¬ ((pre_process ⟨10, 10, 0, 20, 20, 10, 5⟩).coordZ0 ≤ (11 : ℤ) ∧
        (11 : ℤ) ≤ (pre_process ⟨10, 10, 0, 20, 20, 10, 5⟩).coordZ1) := by
      rintro ⟨-, h2⟩
      norm_num [pre_process] at h2
    unfold process_frames
    rw [if_neg hc]
    exact fun i j => rfl

/-- C3: for init_coordinates = [10,10,0,20,20,1] (so z1 - z0 = 1 and
steps - 1 = 0), pre_process still evaluates distance/(steps - 1.0): the
divisor is zero and the d_dist_nonfinite flag records that the unguarded
division was performed with a zero divisor, numpy storing a non-finite
float rather than guarding or raising a configuration error. -/
theorem pre_process_zero_divisor_eval :
    (⟨10, 10, 0, 20, 20, 1, 5⟩ : MaskParams).coordZ1
        - (⟨10, 10, 0, 20, 20, 1, 5⟩ : MaskParams).coordZ0 - 1 = 0 ∧
    (pre_process ⟨10, 10, 0, 20, 20, 1, 5⟩).d_dist_nonfinite = true :=
  ⟨by decide, by decide⟩

/-- C7: for every state, input list and frame index z strictly outside
[z0, z1], process_frames returns exactly one frame, of the same shape as
the input frame, zero everywhere, with every entry in the unsigned 8-bit
range. -/
theorem mask_out_of_range_zero (s : MaskState) (z : ℤ) (data : List Frame)
    (h : z < s.coordZ0 ∨ s.coordZ1 < z) :
    (process_frames s z data).2.length = 1 ∧
    (process_frames s z data).2.headI.rows = data.headI.rows ∧
    (process_frames s z data).2.headI.cols = data.headI.cols ∧
    isZeroFrame (process_frames s z data).2.headI ∧
    isUint8Frame (process_frames s z data).2.headI := by
  have hc : ¬ (s.coordZ0 ≤ z ∧ z ≤ s.coordZ1) := by
    rintro ⟨h1, h2⟩
    rcases h with h | h <;> omega
  unfold process_frames
  rw [if_neg hc]
  exact ⟨rfl, rfl, rfl, fun i j => rfl, fun i j => Nat.mod_lt _ (by decide)⟩

/-- C7 witness: the out-of-range theorem instantiated at the concrete
scenario state, frame index 11 and a 64 x 64 input frame. -/
theorem mask_out_of_range_zero_witness :
    (process_frames (pre_process ⟨10, 10, 0, 20, 20, 10, 5⟩) 11 [frame64]).2.length = 1 ∧
    (process_frames (pre_process ⟨10, 10, 0, 20, 20, 10, 5⟩) 11 [frame64]).2.headI.rows = 64 ∧
    (process_frames (pre_process ⟨10, 10, 0, 20, 20, 10, 5⟩) 11 [frame64]).2.headI.cols = 64 ∧
    isZeroFrame (process_frames (pre_process ⟨10, 10, 0, 20, 20, 10, 5⟩) 11 [frame64]).2.headI ∧
    isUint8Frame (process_frames (pre_process ⟨10, 10, 0, 20, 20, 10, 5⟩) 11 [frame64]).2.headI
    :=
  mask_out_of_range_zero (pre_process ⟨10, 10, 0, 20, 20, 10, 5⟩) 11 [frame64]
    (Or.inr (by decide))

/-- C8 counterexample: with endpoints (10,10,0) to (20,20,10) the state
set up by pre_process has d_step = d_dist = distance/9 (stored here as the
exact multiple 1/9 of distance, with distance squared 200, nonzero), and
the in-range invocation at frame index 2 overwrites d_step with
2*d_dist: process_frames does not leave the pre_process value of d_step
unchanged. -/
theorem mask_d_step_mutated_cex :
    (pre_process ⟨10, 10, 0, 20, 20, 10, 5⟩).distanceSq ≠ 0 ∧
    (process_frames (pre_process ⟨10, 10, 0, 20, 20, 10, 5⟩) 2 [frame64]).1.d_step
      ≠ (pre_process ⟨10, 10, 0, 20, 20, 10, 5⟩).d_step := by
  constructor
  · norm_num [pre_process]
  · have hrange : (pre_process ⟨10, 10, 0, 20, 20, 10, 5⟩).coordZ0 ≤ (2 : ℤ) ∧
        (2 : ℤ) ≤ (pre_process ⟨10, 10, 0, 20, 20, 10, 5⟩).coordZ1 :=
      ⟨by norm_num [pre_process], by norm_num [pre_process]⟩
    unfold process_frames
    rw [if_pos hrange]
    norm_num [pre_process]

/-- C8 amended: process_frames leaves every pre_process field except
d_step unchanged (the coordinates, radius, distance and d_dist), and the
frames it returns do not depend on the incoming value of d_step — the one
field earlier invocations can have mutated — so the output is a pure
function of the inputs, the frame index and the pre_process-fixed
values. -/
theorem process_frames_pure_modulo_d_step (s : MaskState) (q : ℚ) (z : ℤ)
    (data : List Frame) :
    ((process_frames s z data).1.coordX0 = s.coordX0 ∧
      (process_frames s z data).1.coordY0 = s.coordY0 ∧
      (process_frames s z data).1.coordZ0 = s.coordZ0 ∧
      (process_frames s z data).1.coordX1 = s.coordX1 ∧
      (process_frames s z data).1.coordY1 = s.coordY1 ∧
      (process_frames s z data).1.coordZ1 = s.coordZ1 ∧
      (process_frames s z data).1.circle_radius = s.circle_radius ∧
      (process_frames s z data).1.distanceSq = s.distanceSq ∧
      (process_frames s z data).1.d_dist_nonfinite = s.d_dist_nonfinite ∧
      (process_frames s z data).1.d_dist = s.d_dist) ∧
    (process_frames { s with d_step := q } z data).2 = (process_frames s z data).2 := by
  constructor
  · by_cases hc : s.coordZ0 ≤ z ∧ z ≤ s.coordZ1
    · unfold process_frames
      rw [if_pos hc]
      exact ⟨rfl, rfl, rfl, rfl, rfl, rfl, rfl, rfl, rfl, rfl⟩
    · unfold process_frames
      rw [if_neg hc]
      exact ⟨rfl, rfl, rfl, rfl, rfl, rfl, rfl, rfl, rfl, rfl⟩
  · unfold process_frames
    dsimp only
    by_cases hc : s.coordZ0 ≤ z ∧ z ≤ s.coordZ1
    · rw [if_pos hc, if_pos hc]
      rfl
    · rw [if_neg hc, if_neg hc]

/-- C9: for every state, frame index and nonempty input list,
process_frames returns a list of exactly one frame whose shape equals the
shape of the first input frame and whose entries all fit the unsigned
8-bit element type, in the in-range branch and the out-of-range branch
alike. -/
theorem process_frames_single_output (s : MaskState) (z : ℤ) (f : Frame)
    (rest : List Frame) :
    (process_frames s z (f :: rest)).2.length = 1 ∧
    (process_frames s z (f :: rest)).2.headI.rows = f.rows ∧
    (process_frames s z (f :: rest)).2.headI.cols = f.cols ∧
    isUint8Frame (process_frames s z (f :: rest)).2.headI := by
  by_cases hc : s.coordZ0 ≤ z ∧ z ≤ s.coordZ1
  · unfold process_frames
    rw [if_pos hc]
    exact ⟨rfl, rfl, rfl, fun i j => Nat.mod_lt _ (by decide)⟩
  · unfold process_frames
    rw [if_neg hc]
    exact ⟨rfl, rfl, rfl, fun i j => Nat.mod_lt _ (by decide)⟩

/-- C10: if the endpoint parameters satisfy z1 < z0, then for every frame
index z the in-range branch is unreachable and process_frames returns the
all-zero uint8 frame of the input shape, whatever value the step size
d_dist derived at pre_process took (the theorem quantifies over an
arbitrary override q of that field). -/
theorem mask_empty_range_all_zero (p : MaskParams) (q : ℚ) (z : ℤ)
    (data : List Frame) (h : p.coordZ1 < p.coordZ0) :
    (process_frames { pre_process p with d_dist := q } z data).2 =
      [np_uint8 (np_zeros (np_shape data.headI))] := by
  have hc : ¬ (({ pre_process p with d_dist := q } : MaskState).coordZ0 ≤ z ∧
      z ≤ ({ pre_process p with d_dist := q } : MaskState).coordZ1) := by
    have e0 : ({ pre_process p with d_dist := q } : MaskState).coordZ0 = p.coordZ0 := rfl
    have e1 : ({ pre_process p with d_dist := q } : MaskState).coordZ1 = p.coordZ1 := rfl
    rw [e0, e1]
    rintro ⟨h1, h2⟩
    omega
  unfold process_frames
  rw [if_neg hc]

/-- C10 witness: endpoints (10,10,20) and (20,20,0) give z1 = 0 < z0 = 20,
and at frame index 5 with a 64 x 64 input and d_dist overridden by 3 the
output is the all-zero uint8 frame. -/
theorem mask_empty_range_all_zero_witness :
    (process_frames { pre_process ⟨10, 10, 20, 20, 20, 0, 5⟩ with d_dist := 3 }
        5 [frame64]).2 = [np_uint8 (np_zeros (np_shape frame64))] :=
  mask_empty_range_all_zero ⟨10, 10, 20, 20, 20, 0, 5⟩ 3 5 [frame64] (by decide)

/-! ## BaseLoader: NeXus tree searches

The hierarchical file is modelled as a tree of groups, each carrying an
attribute map, an optional leaf value (the dataset payload read by .value
in the source) and named children.  visititems is modelled by the preorder
list of all proper descendants, each paired with its absolute path name,
over which the source callbacks are folded in order.  The BaseLoader
instance state keeps the hits accumulator and application string set in
the source __init__, plus the nxdata attribute as an Option: the source
never assigns self.nxdata, so it stays none, and reading it raises
AttributeError, modelled by the Except error case. -/

/-- Node of the hierarchical file: attributes, optional leaf value,
children in stored order. -/
inductive HTree : Type where
  | group (attrs : List (String × String)) (value : Option String)
      (children : List (String × HTree))

/-- Attribute list of a node (obj.attrs). -/
def HTree.attrs : HTree → List (String × String)
  | .group a _ _ => a

/-- Leaf value of a node (obj.value; none for plain groups). -/
def HTree.value : HTree → Option String
  | .group _ v _ => v

/-- Children of a node, in stored order. -/
def HTree.children : HTree → List (String × HTree)
  | .group _ _ c => c

/-- Lookup in an attribute map, as obj.attrs[key]. -/
def attrLookup (attrs : List (String × String)) (key : String) : Option String :=
  (attrs.find? (fun kv => kv.1 == key)).map Prod.snd

/-- Child lookup by key, as obj[key]. -/
def HTree.child (t : HTree) (k : String) : Option HTree :=
  (t.children.find? (fun kc => kc.1 == k)).map Prod.snd

/-- Direct child keys of a node, as obj.keys(). -/
def HTree.childKeys (t : HTree) : List String := t.children.map Prod.fst

/-- A node paired with its absolute path name, as the h5py objects handed
to visititems callbacks (obj with obj.name). -/
structure NodeRef where
  name : String
  node : HTree

/-- Absolute-path join, following h5py name formation. -/
def joinPath (path k : String) : String :=
  if path = "/" then path ++ k else path ++ "/" ++ k

/-- Preorder list of all proper descendants of a node with the given
absolute path, in stored child order: the objects visititems hands to its
callback, each one visited exactly once, parent before children. -/
def visitList : String → List (String × HTree) → List NodeRef
  | _, [] => []
  | path, (k, HTree.group a v ch) :: rest =>
    let p := joinPath path k
    ⟨p, HTree.group a v ch⟩ :: (visitList p ch ++ visitList path rest)

/-- BaseLoader instance state: hits and application are set in __init__;
nxdata is an attribute no method of the class ever assigns, kept as an
Option whose none means the attribute does not exist. -/
structure LoaderState where
  hits : List NodeRef
  application : Option String
  nxdata : Option (List NodeRef)

/-- BaseLoader.__init__: hits starts empty, application None, and the
nxdata attribute does not exist. -/
def initLoader : LoaderState := ⟨[], none, none⟩

/-- Python exception surfaced by the loader model. -/
inductive PyErr : Type where
  | attributeError
deriving DecidableEq

/-- Test applied by the source callback _visit_NXapp to each visited node:
an NX_class attribute present and equal to NXentry or NXsubentry, a
definition child present, and that child's value equal to
self.application. -/
def visit_NXapp (application : Option String) (ref : NodeRef) : Bool :=
  match attrLookup ref.node.attrs "NX_class" with
  | some c =>
    if c == "NXentry" || c == "NXsubentry" then
      match ref.node.child "definition" with
      | some d => d.value == application
      | none => false
    else false
  | none => false

/-- Test applied by the source callback _visit_NXdata: an NX_class
attribute present and equal to NXdata. -/
def visit_NXdata (ref : NodeRef) : Bool :=
  match attrLookup ref.node.attrs "NX_class" with
  | some c => c == "NXdata"
  | none => false

/-- BaseLoader.get_NXapp: sets self.application, folds the _visit_NXapp
callback (which appends each match to self.hits) over one traversal of
the entry group passed in (nx_file[entry], already resolved by the
external file layer), and returns self.hits. -/
def get_NXapp (ltype : String) (entry : NodeRef) (s : LoaderState) :
    LoaderState × List NodeRef :=
  let s1 : LoaderState := { s with application := some ltype }
  let hits := (visitList entry.name entry.node.children).foldl
    (fun acc ref => if visit_NXapp s1.application ref then acc ++ [ref] else acc) s1.hits
  ({ s1 with hits := hits }, hits)

/-- BaseLoader.get_NXdata: folds the _visit_NXdata callback over one
traversal of the file root, then for each requested detector name scans
self.nxdata — an attribute that was never assigned, so the first
iteration of a non-empty detector list raises AttributeError — appending
every entry whose child keys contain the name or whose path name contains
it as a segment, and returns self.hits. -/
def get_NXdata (file : HTree) (detector_list : List String) (s : LoaderState) :
    Except PyErr (LoaderState × List NodeRef) :=
  let hits1 := (visitList "/" file.children).foldl
    (fun acc ref => if visit_NXdata ref then acc ++ [ref] else acc) s.hits
  let s1 : LoaderState := { s with hits := hits1 }
  match detector_list with
  | [] => Except.ok (s1, s1.hits)
  | _ :: _ =>
    match s1.nxdata with
    | none => Except.error PyErr.attributeError
    | some nxlist =>
      let hits2 := detector_list.foldl (fun acc det =>
        nxlist.foldl (fun acc2 nxdata =>
          if nxdata.node.childKeys.contains det
              || ((nxdata.name.splitOn "/").contains det)
          then acc2 ++ [nxdata] else acc2) acc) s1.hits
      let s2 : LoaderState := { s1 with hits := hits2 }
      Except.ok (s2, s2.hits)

/-- Matches a single get_NXapp traversal of the given entry finds, from a
clean accumulator. -/
def NXappMatches (ltype : String) (entry : NodeRef) : List NodeRef :=
  (visitList entry.name entry.node.children).filter (visit_NXapp (some ltype))

/-- Matches a single get_NXdata collection traversal of the file finds,
from a clean accumulator. -/
def NXdataMatches (file : HTree) : List NodeRef :=
  (visitList "/" file.children).filter visit_NXdata

/-- Names of the hits returned by a successful get_NXdata call. -/
def resultNames (r : Except PyErr (LoaderState × List NodeRef)) : Option (List String) :=
  match r with
  | Except.ok (_, l) => some (l.map NodeRef.name)
  | Except.error _ => none

theorem foldl_append_if {α : Type} (p : α → Bool) :
    ∀ (l acc : List α),
      l.foldl (fun a x => if p x then a ++ [x] else a) acc = acc ++ l.filter p
  | [], acc => by simp
  | x :: xs, acc => by
    by_cases h : p x <;>
      simp [List.foldl_cons, h, foldl_append_if p xs, List.filter_cons]

/-! ## Theorems about BaseLoader -/

/-- Entry group used in the accumulator counterexample: one NXentry child
whose definition child holds the value NXstxm, so one traversal finds
exactly one match. -/
def entryTree : HTree :=
  HTree.group [] none
    [("entry1", HTree.group [("NX_class", "NXentry")] none
      [("definition", HTree.group [] (some "NXstxm") [])])]

/-- The resolved nx_file[entry] object handed to get_NXapp. -/
def entryRef : NodeRef := ⟨"/entry", entryTree⟩

/-- File tree used for the detector-scan evaluation: one NXdata group
/d1 whose direct child keys contain det. -/
def nxdataTree : HTree :=
  HTree.group [] none
    [("d1", HTree.group [("NX_class", "NXdata")] none
      [("det", HTree.group [] none [])])]

/-- C4 counterexample: on a fresh loader, a first get_NXapp call over a
tree with exactly one matching node returns one hit, but the identical
second call on the resulting instance returns two — the accumulator is
not cleared between calls, so a call's result is not limited to its own
traversal's matches. -/
theorem get_NXapp_accumulates_cex :
    (get_NXapp "NXstxm" entryRef initLoader).2.length = 1 ∧
    (get_NXapp "NXstxm" entryRef
      ((get_NXapp "NXstxm" entryRef initLoader).1)).2.length = 2 := by
  constructor <;>
    simp [get_NXapp, visitList, joinPath, visit_NXapp, attrLookup, HTree.child,
      HTree.children, HTree.attrs, HTree.value, initLoader, entryRef, entryTree]

/-- C4 amended: each locator call performs exactly one traversal and
appends exactly its own traversal's matches to the instance accumulator,
returning the entire accumulated list — so the returned list is the prior
hits followed by this call's matches, rather than the call's matches
alone (shown for get_NXapp with any target and for the collection phase
of get_NXdata, whose detector phase is reachable only with an empty
detector list). -/
theorem locator_accumulates (ltype : String) (entry : NodeRef) (s : LoaderState)
    (file : HTree) (s2 : LoaderState) :
    (get_NXapp ltype entry s).2 = s.hits ++ NXappMatches ltype entry ∧
    (get_NXapp ltype entry s).1.hits = s.hits ++ NXappMatches ltype entry ∧
    get_NXdata file [] s2 =
      Except.ok ({ s2 with hits := s2.hits ++ NXdataMatches file },
        s2.hits ++ NXdataMatches file) := by
  refine ⟨?_, ?_, ?_⟩
  · simp [get_NXapp, NXappMatches, foldl_append_if]
  · simp [get_NXapp, NXappMatches, foldl_append_if]
  · simp [get_NXdata, NXdataMatches, foldl_append_if]

/-- C5: get_NXdata raises AttributeError for every non-empty detector
list — here on a childless tree with nothing to match, where the claim
requires the empty list — because self.nxdata is never assigned; the
companion conjunct shows get_NXapp on the same fresh instance does return
the empty list when nothing matches. -/
theorem get_NXdata_raises_eval :
    get_NXdata (HTree.group [] none []) ["det"] initLoader
      = Except.error PyErr.attributeError ∧
    (get_NXapp "NXstxm" ⟨"/entry", HTree.group [] none []⟩ initLoader).2 = [] := by
  constructor <;>
    simp [get_NXdata, get_NXapp, visitList, joinPath, visit_NXdata, attrLookup,
      HTree.children, HTree.attrs, initLoader]

/-- C6: the unfiltered collection alone works — with an empty detector
list the call returns the one NXdata node /d1 — but requesting the
detector det, which /d1 contains as a direct child key (so the claim
would append it once more, giving /d1 twice), instead raises
AttributeError: the re-scan loop reads self.nxdata, which no code ever
assigns, rather than the collected set. -/
theorem get_NXdata_detector_scan_eval :
    resultNames (get_NXdata nxdataTree [] initLoader) = some ["/d1"] ∧
    get_NXdata nxdataTree ["det"] initLoader = Except.error PyErr.attributeError := by
  constructor <;>
    simp [get_NXdata, resultNames, visitList, joinPath, visit_NXdata, attrLookup,
      HTree.children, HTree.attrs, initLoader, nxdataTree]
